import Mathlib

/-
  Verification development for the DrugApproval metadata repository layer
  (src/src/platform/metadata/repository.py).

  The repository layer (Artifact / DataSource, Event / DataSourceEvent) is
  embedded shallowly: each Python method is translated into a Lean function
  that returns the list of data-access-object (PGDao) operations the method
  issues, in order.  The PGDao itself is not part of the sources under
  verification; where a claim depends on its behaviour, that behaviour is
  modelled from the specification's external-interface contract and the
  definitions say so in their doc comments.
-/

set_option linter.unusedVariables false

/-- Dynamic (Python) values carried in columns, parameters and predicates. -/
inductive Value where
  | vNone
  | vBool (b : Bool)
  | vInt (n : Int)
  | vStr (s : String)
  | vTime (t : Nat)
  | vStrList (xs : List String)
deriving DecidableEq, Repr

/-- Database credentials as described for the connection factory:
`{database, user, host, port, password}`. -/
structure DBCredentials where
  database : String
  user : String
  host : String
  port : String
  password : String
deriving DecidableEq, Repr

/-- Constructor arguments recorded for a `PGDao` instance: which credentials
and autocommit flag were passed to `PGDao(...)` (`none` = argument omitted). -/
structure PGDao where
  credentials : Option DBCredentials
  autocommit : Option Bool
deriving DecidableEq, Repr

/-- Constructor arguments recorded for a `PGConnectionFactory` instance
(`none` = no credentials passed). -/
structure PGConnectionFactory where
  credentials : Option DBCredentials
deriving DecidableEq, Repr

/-- One operation issued to the data-access object.  The final `Option String`
of the storage operations is the `schema` argument as passed by the caller
(`none` when the call omits it). -/
inductive DaoOp where
  | connect
  | begin
  | rollback
  | commit
  | close
  | create (table : String) (columns : List String) (values : List Value)
      (schema : Option String)
  | read (table : String) (whereKV : Option (String × Value))
      (schema : Option String)
  | update (table : String) (column : String) (value : Value)
      (whereKey : String) (whereValue : Value) (schema : Option String)
  | delete (table : String) (whereKey : String) (whereValue : Value)
      (schema : Option String)
deriving DecidableEq, Repr

/-- The `schema` argument a storage operation was given (`none` for the
transaction-lifecycle operations, which take no schema). -/
def DaoOp.schemaArg : DaoOp → Option (Option String)
  | .create _ _ _ s => some s
  | .read _ _ s => some s
  | .update _ _ _ _ _ s => some s
  | .delete _ _ _ s => some s
  | _ => none

/-- The `table` argument a storage operation was given. -/
def DaoOp.tableArg : DaoOp → Option String
  | .create t _ _ _ => some t
  | .read t _ _ => some t
  | .update t _ _ _ _ _ => some t
  | .delete t _ _ _ => some t
  | _ => none

/-- State built by `Artifact.__init__`: it accepts and discards arbitrary
positional and keyword arguments, then constructs `PGConnectionFactory()` and
`PGDao()` with no arguments and fixes the schema to `'public'`. -/
structure ArtifactState where
  connection_factory : PGConnectionFactory
  dao : PGDao
  schema : String
deriving DecidableEq, Repr

/-- `Artifact.__init__(*args, **kwargs)`: every argument is discarded. -/
def Artifact.initState (creds : Option DBCredentials) (autocommit : Option Bool) :
    ArtifactState :=
  { connection_factory := { credentials := none },
    dao := { credentials := none, autocommit := none },
    schema := "public" }

/-- State of a `DataSource` instance: the `Artifact` base state plus the fixed
table name. -/
structure DataSourceState where
  base : ArtifactState
  table : String
deriving DecidableEq, Repr

/-- `DataSource.__init__(credentials, autocommit=False)`: forwards both
arguments to `Artifact.__init__` (which discards them) and sets the table. -/
def DataSource.init (credentials : DBCredentials) (autocommit : Bool) :
    DataSourceState :=
  { base := Artifact.initState (some credentials) (some autocommit),
    table := "datasource" }

/-- State built by `Event.__init__(credentials, autocommit=True)`: keeps the
credentials and constructs `PGDao(credentials=credentials, autocommit=autocommit)`. -/
structure EventState where
  credentials : DBCredentials
  dao : PGDao
  schema : String
deriving DecidableEq, Repr

/-- `Event.__init__(credentials, autocommit=True)`. -/
def Event.init (credentials : DBCredentials) (autocommit : Bool) : EventState :=
  { credentials := credentials,
    dao := { credentials := some credentials, autocommit := some autocommit },
    schema := "public" }

/-- State of a `DataSourceEvent` instance. -/
structure DataSourceEventState where
  base : EventState
  table : String
deriving DecidableEq, Repr

/-- `DataSourceEvent.__init__(credentials)`: calls `Event.__init__` with the
credentials only, so `autocommit` takes its default `True`. -/
def DataSourceEvent.init (credentials : DBCredentials) : DataSourceEventState :=
  { base := Event.init credentials true,
    table := "datasourceevent" }

/-- The fixed 17-entry column list assembled by `DataSource.create`. -/
def dataSourceFixedColumns : List String :=
  ["name", "source_type", "version", "webpage",
   "link", "link_type", "frequency", "lifecycle", "creator",
   "has_changed", "source_updated", "created", "created_by",
   "title", "description", "coverage", "maintainer"]

/-- `DataSource.create`: builds the fixed column/value lists, appends every
extra keyword attribute as a trailing (key, value) pair, and issues one
`dao.create` on the instance's table and schema. -/
def DataSource.createOps (s : DataSourceState)
    (name source_type version webpage link link_type frequency lifecycle
     creator has_changed source_updated created created_by
     title description coverage maintainer : Value)
    (kwargs : List (String × Value)) : List DaoOp :=
  let columns := dataSourceFixedColumns ++ kwargs.map Prod.fst
  let values := [name, source_type, version, webpage,
                 link, link_type, frequency, lifecycle, creator,
                 has_changed, source_updated, created, created_by,
                 title, description, coverage, maintainer] ++ kwargs.map Prod.snd
  [DaoOp.create s.table columns values (some s.base.schema)]

/-- `DataSource.read(name=None)`: one `dao.read`, filtered on `name` when the
argument is given, on the instance's table and schema. -/
def DataSource.readOps (s : DataSourceState) (name : Option String) : List DaoOp :=
  match name with
  | some n => [DaoOp.read s.table (some ("name", Value.vStr n)) (some s.base.schema)]
  | none => [DaoOp.read s.table none (some s.base.schema)]

/-- `DataSource.update(name, version, uris, has_changed, source_updated,
updated, updated_by)`: connect, begin, five single-column updates keyed on
`name`, commit, close.  The `version` parameter is accepted but never used —
no update on the `version` column is issued. -/
def DataSource.updateOps (s : DataSourceState) (name : String)
    (version uris has_changed source_updated updated updated_by : Value) :
    List DaoOp :=
  [DaoOp.connect,
   DaoOp.begin,
   DaoOp.update s.table "uris" uris "name" (Value.vStr name) (some s.base.schema),
   DaoOp.update s.table "has_changed" has_changed "name" (Value.vStr name)
     (some s.base.schema),
   DaoOp.update s.table "source_updated" source_updated "name" (Value.vStr name)
     (some s.base.schema),
   DaoOp.update s.table "updated" updated "name" (Value.vStr name)
     (some s.base.schema),
   DaoOp.update s.table "updated_by" updated_by "name" (Value.vStr name)
     (some s.base.schema),
   DaoOp.commit,
   DaoOp.close]

/-- `DataSource.delete(name)`: one `dao.delete` keyed on `name`. -/
def DataSource.deleteOps (s : DataSourceState) (name : String) : List DaoOp :=
  [DaoOp.delete s.table "name" (Value.vStr name) (some s.base.schema)]

/-- `DataSourceEvent.create(**kwargs)`: the column list is the keyword names
and the value list the keyword values, in keyword order; one `dao.create`. -/
def DataSourceEvent.createOps (s : DataSourceEventState)
    (kwargs : List (String × Value)) : List DaoOp :=
  [DaoOp.create s.table (kwargs.map Prod.fst) (kwargs.map Prod.snd)
    (some s.base.schema)]

/-- `DataSourceEvent.read(name=None)`: one `dao.read`, filtered on `name` when
given.  The call passes no `schema` argument. -/
def DataSourceEvent.readOps (s : DataSourceEventState) (name : Option String) :
    List DaoOp :=
  match name with
  | none => [DaoOp.read s.table none none]
  | some n => [DaoOp.read s.table (some ("name", Value.vStr n)) none]

/-- `DataSourceEvent.delete(id=None)`: one `dao.delete` keyed on `id`.  The
call passes no `schema` argument. -/
def DataSourceEvent.deleteOps (s : DataSourceEventState) (id : Value) :
    List DaoOp :=
  [DaoOp.delete s.table "id" id none]

/-- A stored row: an ordered association of column names to values. -/
abbrev Row := List (String × Value)

/-- Value of column `c` in row `r` (first occurrence). -/
def lookupCol : Row → String → Option Value
  | [], _ => none
  | (k, v) :: rest, c => if k = c then some v else lookupCol rest c

/-- Modelled from the spec: the storage layer's per-row effect of a
single-column update — set column `c` of the row to `v` (the PGDao
data-access object of src/src/platform/database/access.py is not under the
sources; its `update` contract is "update one column on rows matching one
equality predicate"). -/
def setCol : Row → String → Value → Row
  | [], c, v => [(c, v)]
  | (k, w) :: rest, c, v =>
      if k = c then (c, v) :: rest else (k, w) :: setCol rest c v

/-- Modelled from the spec: the state effect of one data-access operation on
a table held as a list of rows.  `create` inserts one row pairing columns
with values; `update` sets one column on rows matching the equality
predicate; `delete` removes rows matching the equality predicate; the
transaction-lifecycle operations and `read` do not change the table. -/
def applyOp (db : List Row) (op : DaoOp) : List Row :=
  match op with
  | .create _ columns values _ => db ++ [columns.zip values]
  | .update _ column value whereKey whereValue _ =>
      db.map (fun r =>
        if lookupCol r whereKey = some whereValue then setCol r column value else r)
  | .delete _ whereKey whereValue _ =>
      db.filter (fun r => ¬ (lookupCol r whereKey = some whereValue))
  | _ => db

/-- Run a sequence of data-access operations against a table state. -/
def runOps (db : List Row) (ops : List DaoOp) : List Row :=
  ops.foldl applyOp db

/-- Modelled from the spec: the result of the data-access object's `read` —
"select all columns, optionally filtered by one equality predicate"; an
empty match is an empty result, never an error. -/
def daoReadResult (db : List Row) (whereKV : Option (String × Value)) :
    Except String (List Row) :=
  match whereKV with
  | none => Except.ok db
  | some (k, v) => Except.ok (db.filter (fun r => lookupCol r k = some v))

/-- Result of `DataSource.read(name=None)` against table state `db`:
delegates to the data-access read with the same filter its single emitted
operation carries. -/
def DataSource.readResult (db : List Row) (name : Option String) :
    Except String (List Row) :=
  daoReadResult db (match name with
    | some n => some ("name", Value.vStr n)
    | none => none)

/-- Result of `DataSource.delete(name)` against table state `db`: the state
after its single emitted operation, returned without error (modelled from
the spec: "Deleting a non-existent name is not an error"). -/
def DataSource.deleteResult (s : DataSourceState) (db : List Row)
    (name : String) : Except String (List Row) :=
  Except.ok (runOps db (DataSource.deleteOps s name))

/-- Result of `DataSourceEvent.read(name=None)` against table state `db`. -/
def DataSourceEvent.readResult (db : List Row) (name : Option String) :
    Except String (List Row) :=
  daoReadResult db (match name with
    | some n => some ("name", Value.vStr n)
    | none => none)

/-- Python exception semantics for a straight-line sequence of data-access
calls: the calls before index `failAt` complete, the call at index `failAt`
is attempted and raises, nothing after it runs.  Returns the attempted
operations and whether an exception propagated to the caller. -/
def runWithFailure : Nat → List DaoOp → List DaoOp × Bool
  | _, [] => ([], false)
  | 0, op :: _ => ([op], true)
  | Nat.succ n, op :: rest =>
      let p := runWithFailure n rest
      (op :: p.1, p.2)

/-- Concrete credentials used to instantiate witnesses. -/
def sampleCredentials : DBCredentials :=
  { database := "metadata", user := "etl", host := "localhost",
    port := "5432", password := "pw" }

/-- Setting column `c` makes `c` hold the written value. -/
theorem lookupCol_setCol_self (r : Row) (c : String) (v : Value) :
    lookupCol (setCol r c v) c = some v := by
  induction r with
  | nil => simp [setCol, lookupCol]
  | cons p rest ih =>
      obtain ⟨k, w⟩ := p
      by_cases h : k = c
      · simp [setCol, lookupCol, h]
      · simp [setCol, lookupCol, h, ih]

/-- Setting column `c` leaves every other column unchanged. -/
theorem lookupCol_setCol_ne (r : Row) (c c2 : String) (v : Value)
    (h : c ≠ c2) : lookupCol (setCol r c v) c2 = lookupCol r c2 := by
  induction r with
  | nil => simp [setCol, lookupCol, h]
  | cons p rest ih =>
      obtain ⟨k, w⟩ := p
      by_cases hk : k = c
      · subst hk
        simp [setCol, lookupCol, h]
      · simp [setCol, lookupCol, hk, ih]

/-- Zipping a pair list's projections recovers the list. -/
theorem zip_fst_snd_self (l : List (String × Value)) :
    (l.map Prod.fst).zip (l.map Prod.snd) = l := by
  induction l with
  | nil => rfl
  | cons p rest ih =>
      obtain ⟨k, v⟩ := p
      simp [ih]

/-- The net table effect of `DataSource.update`: every row matching the name
gets the five columns set in sequence; every other row is untouched. -/
theorem runOps_updateOps (c : DBCredentials) (a : Bool) (db : List Row)
    (name : String) (version uris hc su u ub : Value) :
    runOps db (DataSource.updateOps (DataSource.init c a) name version uris hc
      su u ub) =
    db.map (fun r =>
      if lookupCol r "name" = some (Value.vStr name) then
        setCol (setCol (setCol (setCol (setCol r "uris" uris) "has_changed" hc)
          "source_updated" su) "updated" u) "updated_by" ub
      else r) := by
  have hn : ∀ (col : String), col ≠ "name" → ∀ (r : Row) (v : Value),
      lookupCol (setCol r col v) "name" = lookupCol r "name" :=
    fun col hcol r v => lookupCol_setCol_ne r col "name" v hcol
  have e : runOps db (DataSource.updateOps (DataSource.init c a) name version
      uris hc su u ub) =
      ((((db.map (fun r => if lookupCol r "name" = some (Value.vStr name) then
            setCol r "uris" uris else r)).map
         (fun r => if lookupCol r "name" = some (Value.vStr name) then
            setCol r "has_changed" hc else r)).map
         (fun r => if lookupCol r "name" = some (Value.vStr name) then
            setCol r "source_updated" su else r)).map
         (fun r => if lookupCol r "name" = some (Value.vStr name) then
            setCol r "updated" u else r)).map
         (fun r => if lookupCol r "name" = some (Value.vStr name) then
            setCol r "updated_by" ub else r) := rfl
  rw [e, List.map_map, List.map_map, List.map_map, List.map_map]
  congr 1
  funext r
  by_cases h : lookupCol r "name" = some (Value.vStr name)
  · simp [Function.comp, h, hn "uris" (by decide), hn "has_changed" (by decide),
      hn "source_updated" (by decide), hn "updated" (by decide)]
  · simp [Function.comp, h, hn "uris" (by decide), hn "has_changed" (by decide),
      hn "source_updated" (by decide), hn "updated" (by decide)]

/-- Column values of the five-fold `setCol` chain applied by
`DataSource.update` to a matching row. -/
theorem lookupCol_updateChain (r : Row) (uris hc su u ub : Value) :
    lookupCol (setCol (setCol (setCol (setCol (setCol r "uris" uris)
        "has_changed" hc) "source_updated" su) "updated" u) "updated_by" ub)
        "uris" = some uris ∧
    lookupCol (setCol (setCol (setCol (setCol (setCol r "uris" uris)
        "has_changed" hc) "source_updated" su) "updated" u) "updated_by" ub)
        "has_changed" = some hc ∧
    lookupCol (setCol (setCol (setCol (setCol (setCol r "uris" uris)
        "has_changed" hc) "source_updated" su) "updated" u) "updated_by" ub)
        "source_updated" = some su ∧
    lookupCol (setCol (setCol (setCol (setCol (setCol r "uris" uris)
        "has_changed" hc) "source_updated" su) "updated" u) "updated_by" ub)
        "updated" = some u ∧
    lookupCol (setCol (setCol (setCol (setCol (setCol r "uris" uris)
        "has_changed" hc) "source_updated" su) "updated" u) "updated_by" ub)
        "updated_by" = some ub ∧
    ∀ c2 : String, c2 ≠ "uris" → c2 ≠ "has_changed" → c2 ≠ "source_updated" →
      c2 ≠ "updated" → c2 ≠ "updated_by" →
      lookupCol (setCol (setCol (setCol (setCol (setCol r "uris" uris)
        "has_changed" hc) "source_updated" su) "updated" u) "updated_by" ub)
        c2 = lookupCol r c2 := by
  refine ⟨?_, ?_, ?_, ?_, ?_, ?_⟩
  · rw [lookupCol_setCol_ne _ _ _ _ (by decide),
      lookupCol_setCol_ne _ _ _ _ (by decide),
      lookupCol_setCol_ne _ _ _ _ (by decide),
      lookupCol_setCol_ne _ _ _ _ (by decide), lookupCol_setCol_self]
  · rw [lookupCol_setCol_ne _ _ _ _ (by decide),
      lookupCol_setCol_ne _ _ _ _ (by decide),
      lookupCol_setCol_ne _ _ _ _ (by decide), lookupCol_setCol_self]
  · rw [lookupCol_setCol_ne _ _ _ _ (by decide),
      lookupCol_setCol_ne _ _ _ _ (by decide), lookupCol_setCol_self]
  · rw [lookupCol_setCol_ne _ _ _ _ (by decide), lookupCol_setCol_self]
  · rw [lookupCol_setCol_self]
  · intro c2 h1 h2 h3 h4 h5
    rw [lookupCol_setCol_ne _ _ _ _ (Ne.symm h5),
      lookupCol_setCol_ne _ _ _ _ (Ne.symm h4),
      lookupCol_setCol_ne _ _ _ _ (Ne.symm h3),
      lookupCol_setCol_ne _ _ _ _ (Ne.symm h2),
      lookupCol_setCol_ne _ _ _ _ (Ne.symm h1)]

/-- C2: Every call to `DataSource.update` issues exactly this data-access
sequence: connect, begin, five single-column updates (on uris, has_changed,
source_updated, updated, updated_by) each keyed `name` = the name argument,
then commit, then close. -/
theorem dataSource_update_issues_fixed_dao_sequence (c : DBCredentials)
    (a : Bool) (name : String)
    (version uris has_changed source_updated updated updated_by : Value) :
    DataSource.updateOps (DataSource.init c a) name version uris has_changed
      source_updated updated updated_by =
    [DaoOp.connect,
     DaoOp.begin,
     DaoOp.update "datasource" "uris" uris "name" (Value.vStr name)
       (some "public"),
     DaoOp.update "datasource" "has_changed" has_changed "name"
       (Value.vStr name) (some "public"),
     DaoOp.update "datasource" "source_updated" source_updated "name"
       (Value.vStr name) (some "public"),
     DaoOp.update "datasource" "updated" updated "name" (Value.vStr name)
       (some "public"),
     DaoOp.update "datasource" "updated_by" updated_by "name" (Value.vStr name)
       (some "public"),
     DaoOp.commit,
     DaoOp.close] := rfl

/-- C9: In every `DataSource.create` call, the columns and values lists are
positionally aligned and of equal length: the first 17 entries pair the fixed
attribute list with the corresponding parameters, and every extra keyword
attribute is appended as its (key, value) pair in keyword order. -/
theorem dataSource_create_columns_values_aligned (c : DBCredentials) (a : Bool)
    (name source_type version webpage link link_type frequency lifecycle
     creator has_changed source_updated created created_by title description
     coverage maintainer : Value) (kwargs : List (String × Value)) :
    DataSource.createOps (DataSource.init c a) name source_type version webpage
      link link_type frequency lifecycle creator has_changed source_updated
      created created_by title description coverage maintainer kwargs =
      [DaoOp.create "datasource"
        (dataSourceFixedColumns ++ kwargs.map Prod.fst)
        ([name, source_type, version, webpage, link, link_type, frequency,
          lifecycle, creator, has_changed, source_updated, created, created_by,
          title, description, coverage, maintainer] ++ kwargs.map Prod.snd)
        (some "public")] ∧
    (dataSourceFixedColumns ++ kwargs.map Prod.fst).length =
      ([name, source_type, version, webpage, link, link_type, frequency,
        lifecycle, creator, has_changed, source_updated, created, created_by,
        title, description, coverage, maintainer] ++ kwargs.map Prod.snd).length ∧
    (dataSourceFixedColumns ++ kwargs.map Prod.fst).zip
      ([name, source_type, version, webpage, link, link_type, frequency,
        lifecycle, creator, has_changed, source_updated, created, created_by,
        title, description, coverage, maintainer] ++ kwargs.map Prod.snd) =
      dataSourceFixedColumns.zip
        [name, source_type, version, webpage, link, link_type, frequency,
         lifecycle, creator, has_changed, source_updated, created, created_by,
         title, description, coverage, maintainer] ++ kwargs := by
  refine ⟨rfl, by simp [dataSourceFixedColumns], ?_⟩
  rw [List.zip_append (by simp [dataSourceFixedColumns]), zip_fst_snd_self]

/-- C10: The `Artifact` base constructor discards its arguments — for every
credentials/autocommit passed to `DataSource`, the data-access object and the
connection factory are built with no credentials — while the `Event` base
constructor passes credentials and autocommit through to its data-access
object. -/
theorem artifact_ctor_discards_event_ctor_forwards (c : DBCredentials)
    (a : Bool) :
    (DataSource.init c a).base.dao.credentials = none ∧
    (DataSource.init c a).base.dao.autocommit = none ∧
    (DataSource.init c a).base.connection_factory.credentials = none ∧
    (Event.init c a).dao.credentials = some c ∧
    (Event.init c a).dao.autocommit = some a ∧
    (DataSourceEvent.init c).base.dao.credentials = some c ∧
    (DataSourceEvent.init c).base.dao.autocommit = some true :=
  ⟨rfl, rfl, rfl, rfl, rfl, rfl, rfl⟩

/-- C5 counterexample: `DataSourceEvent.read` (here with `name=None`) issues a
storage operation whose schema argument is not `'public'` — the call omits the
schema entirely. -/
theorem dataSourceEvent_read_omits_schema :
    ¬ (∀ op ∈ DataSourceEvent.readOps (DataSourceEvent.init sampleCredentials)
        none,
        DaoOp.schemaArg op = some (some "public") ∧
        DaoOp.tableArg op = some "datasourceevent") := by
  decide

/-- C5 amended: every storage operation issued by `DataSource` carries schema
`'public'` and table `'datasource'`, and `DataSourceEvent.create` carries
schema `'public'` and table `'datasourceevent'`; `DataSourceEvent.read` and
`DataSourceEvent.delete` carry table `'datasourceevent'` but omit the schema
argument, leaving it to the data-access object's default. -/
theorem storage_ops_schema_and_table_targets (c : DBCredentials) (a : Bool)
    (nm : String) (name source_type version webpage link link_type frequency
     lifecycle creator has_changed source_updated created created_by title
     description coverage maintainer : Value) (kwargs : List (String × Value))
    (uris updated updated_by id : Value) :
    ((DataSource.createOps (DataSource.init c a) name source_type version
        webpage link link_type frequency lifecycle creator has_changed
        source_updated created created_by title description coverage maintainer
        kwargs).filterMap DaoOp.schemaArg = [some "public"] ∧
     (DataSource.createOps (DataSource.init c a) name source_type version
        webpage link link_type frequency lifecycle creator has_changed
        source_updated created created_by title description coverage maintainer
        kwargs).filterMap DaoOp.tableArg = ["datasource"]) ∧
    ((DataSource.readOps (DataSource.init c a) (some nm)).filterMap
        DaoOp.schemaArg = [some "public"] ∧
     (DataSource.readOps (DataSource.init c a) (some nm)).filterMap
        DaoOp.tableArg = ["datasource"] ∧
     (DataSource.readOps (DataSource.init c a) none).filterMap
        DaoOp.schemaArg = [some "public"] ∧
     (DataSource.readOps (DataSource.init c a) none).filterMap
        DaoOp.tableArg = ["datasource"]) ∧
    ((DataSource.updateOps (DataSource.init c a) nm version uris has_changed
        source_updated updated updated_by).filterMap DaoOp.schemaArg =
        [some "public", some "public", some "public", some "public",
         some "public"] ∧
     (DataSource.updateOps (DataSource.init c a) nm version uris has_changed
        source_updated updated updated_by).filterMap DaoOp.tableArg =
        ["datasource", "datasource", "datasource", "datasource",
         "datasource"]) ∧
    ((DataSource.deleteOps (DataSource.init c a) nm).filterMap
        DaoOp.schemaArg = [some "public"] ∧
     (DataSource.deleteOps (DataSource.init c a) nm).filterMap
        DaoOp.tableArg = ["datasource"]) ∧
    ((DataSourceEvent.createOps (DataSourceEvent.init c) kwargs).filterMap
        DaoOp.schemaArg = [some "public"] ∧
     (DataSourceEvent.createOps (DataSourceEvent.init c) kwargs).filterMap
        DaoOp.tableArg = ["datasourceevent"]) ∧
    ((DataSourceEvent.readOps (DataSourceEvent.init c) (some nm)).filterMap
        DaoOp.schemaArg = [none] ∧
     (DataSourceEvent.readOps (DataSourceEvent.init c) (some nm)).filterMap
        DaoOp.tableArg = ["datasourceevent"] ∧
     (DataSourceEvent.readOps (DataSourceEvent.init c) none).filterMap
        DaoOp.schemaArg = [none] ∧
     (DataSourceEvent.readOps (DataSourceEvent.init c) none).filterMap
        DaoOp.tableArg = ["datasourceevent"]) ∧
    ((DataSourceEvent.deleteOps (DataSourceEvent.init c) id).filterMap
        DaoOp.schemaArg = [none] ∧
     (DataSourceEvent.deleteOps (DataSourceEvent.init c) id).filterMap
        DaoOp.tableArg = ["datasourceevent"]) := by
  refine ⟨⟨rfl, rfl⟩, ⟨rfl, rfl, rfl, rfl⟩, ⟨rfl, rfl⟩, ⟨rfl, rfl⟩,
    ⟨rfl, rfl⟩, ⟨rfl, rfl, rfl, rfl⟩, ⟨rfl, rfl⟩⟩

/-- The spec's concrete scenario instance. -/
def scenarioDataSource : DataSourceState := DataSource.init sampleCredentials false

/-- `create(name="fda_events", source_type="web", version=1, ...,
has_changed=False, source_updated=T0, created=T0, created_by="etl")`. -/
def scenarioCreateOps : List DaoOp :=
  DataSource.createOps scenarioDataSource
    (Value.vStr "fda_events") (Value.vStr "web") (Value.vInt 1)
    (Value.vStr "https://fda.gov") (Value.vStr "https://fda.gov/data.csv")
    (Value.vStr "csv") (Value.vInt 7) (Value.vInt 30) (Value.vInt 1)
    (Value.vBool false) (Value.vTime 100) (Value.vTime 100) (Value.vStr "etl")
    Value.vNone Value.vNone Value.vNone Value.vNone []

/-- Table state after the scenario's `create` on an empty table. -/
def scenarioDb1 : List Row := runOps [] scenarioCreateOps

/-- `update("fda_events", version=2, uris=[...], has_changed=True,
source_updated=T1, updated=T1, updated_by="etl")`. -/
def scenarioUpdateOps : List DaoOp :=
  DataSource.updateOps scenarioDataSource "fda_events" (Value.vInt 2)
    (Value.vStrList ["https://fda.gov/events_2.csv"]) (Value.vBool true)
    (Value.vTime 200) (Value.vTime 200) (Value.vStr "etl")

/-- Table state after the scenario's `update`. -/
def scenarioDb2 : List Row := runOps scenarioDb1 scenarioUpdateOps

/-- C1 (code bug): in the spec's concrete scenario, `read("fda_events")` after
`update(..., version=2, ...)` returns one row whose `version` column still
holds 1, not the version argument 2 — `DataSource.update` accepts `version`
but never issues an update for it — while `has_changed` does read `True`. -/
theorem dataSource_update_does_not_write_version :
    (DataSource.readResult scenarioDb2 (some "fda_events")).toOption.map
      List.length = some 1 ∧
    (DataSource.readResult scenarioDb2 (some "fda_events")).toOption.map
      (List.map (fun r => lookupCol r "version")) = some [some (Value.vInt 1)] ∧
    (DataSource.readResult scenarioDb2 (some "fda_events")).toOption.map
      (List.map (fun r => lookupCol r "has_changed")) =
      some [some (Value.vBool true)] ∧
    some (Value.vInt 1) ≠ some (Value.vInt 2) := by decide

/-- C3: if the (k+1)-th of the five column updates inside `DataSource.update`
raises after the earlier ones succeeded, the attempted operations are exactly
connect, begin and the first k+1 column updates — no rollback is issued,
commit and close are never reached, the transaction opened by begin stays
open, and the failure propagates to the caller. -/
theorem dataSource_update_partial_failure_leaves_txn_open (c : DBCredentials)
    (a : Bool) (name : String)
    (version uris has_changed source_updated updated updated_by : Value)
    (k : Nat) (hk : k < 5) :
    (runWithFailure (2 + k) (DataSource.updateOps (DataSource.init c a) name
       version uris has_changed source_updated updated updated_by)).2 = true ∧
    (runWithFailure (2 + k) (DataSource.updateOps (DataSource.init c a) name
       version uris has_changed source_updated updated updated_by)).1 =
      (DataSource.updateOps (DataSource.init c a) name version uris has_changed
       source_updated updated updated_by).take (3 + k) ∧
    DaoOp.begin ∈ (runWithFailure (2 + k) (DataSource.updateOps
       (DataSource.init c a) name version uris has_changed source_updated
       updated updated_by)).1 ∧
    DaoOp.rollback ∉ (runWithFailure (2 + k) (DataSource.updateOps
       (DataSource.init c a) name version uris has_changed source_updated
       updated updated_by)).1 ∧
    DaoOp.commit ∉ (runWithFailure (2 + k) (DataSource.updateOps
       (DataSource.init c a) name version uris has_changed source_updated
       updated updated_by)).1 ∧
    DaoOp.close ∉ (runWithFailure (2 + k) (DataSource.updateOps
       (DataSource.init c a) name version uris has_changed source_updated
       updated updated_by)).1 ∧
    (∃ col v, (DataSource.updateOps (DataSource.init c a) name version uris
       has_changed source_updated updated updated_by).get? (2 + k) =
       some (DaoOp.update "datasource" col v "name" (Value.vStr name)
         (some "public"))) := by
  interval_cases k <;>
    exact ⟨rfl, rfl,
      by simp [DataSource.updateOps, DataSource.init, Artifact.initState,
        runWithFailure],
      by simp [DataSource.updateOps, DataSource.init, Artifact.initState,
        runWithFailure],
      by simp [DataSource.updateOps, DataSource.init, Artifact.initState,
        runWithFailure],
      by simp [DataSource.updateOps, DataSource.init, Artifact.initState,
        runWithFailure],
      ⟨_, _, rfl⟩⟩

/-- Witness for C3 at the scenario's update with the third column update
(index 2 of the five) failing. -/
theorem dataSource_update_partial_failure_witness :
    (2 : Nat) < 5 ∧
    (runWithFailure 4 scenarioUpdateOps).2 = true ∧
    DaoOp.commit ∉ (runWithFailure 4 scenarioUpdateOps).1 ∧
    DaoOp.begin ∈ (runWithFailure 4 scenarioUpdateOps).1 := by
  have h := dataSource_update_partial_failure_leaves_txn_open
    sampleCredentials false "fda_events" (Value.vInt 2)
    (Value.vStrList ["https://fda.gov/events_2.csv"]) (Value.vBool true)
    (Value.vTime 200) (Value.vTime 200) (Value.vStr "etl") 2 (by decide)
  exact ⟨by decide, h.1, h.2.2.2.2.1, h.2.2.1⟩

/-- C6: `DataSource.read` delegates one read on its table/schema — filtered by
the single equality predicate `name == <given>` when a name is given (with an
empty, error-free result when nothing matches), unfiltered when omitted. -/
theorem dataSource_read_delegation (c : DBCredentials) (a : Bool)
    (db : List Row) (name : String) :
    DataSource.readOps (DataSource.init c a) (some name) =
      [DaoOp.read "datasource" (some ("name", Value.vStr name))
        (some "public")] ∧
    DataSource.readOps (DataSource.init c a) none =
      [DaoOp.read "datasource" none (some "public")] ∧
    DataSource.readResult db (some name) =
      Except.ok (db.filter
        (fun r => lookupCol r "name" = some (Value.vStr name))) ∧
    DataSource.readResult db none = Except.ok db ∧
    ((∀ r ∈ db, ¬ lookupCol r "name" = some (Value.vStr name)) →
      DataSource.readResult db (some name) = Except.ok []) := by
  refine ⟨rfl, rfl, rfl, rfl, fun h => ?_⟩
  have hnil : db.filter
      (fun r => lookupCol r "name" = some (Value.vStr name)) = [] := by
    rw [List.filter_eq_nil_iff]
    intro r hr
    simpa using h r hr
  have e : DataSource.readResult db (some name) =
      Except.ok (db.filter
        (fun r => lookupCol r "name" = some (Value.vStr name))) := rfl
  rw [e, hnil]

/-- Witness for C6 on a one-row table holding a different name: the filtered
read returns an empty result, not an error. -/
theorem dataSource_read_delegation_witness :
    (∀ r ∈ [[("name", Value.vStr "other")]],
      ¬ lookupCol r "name" = some (Value.vStr "fda_events")) ∧
    DataSource.readResult [[("name", Value.vStr "other")]]
      (some "fda_events") = Except.ok [] :=
  ⟨by decide,
   (dataSource_read_delegation sampleCredentials false
     [[("name", Value.vStr "other")]] "fda_events").2.2.2.2 (by decide)⟩

/-- C7: `DataSource.delete(name)` completes without error for every name,
removing exactly the rows whose name column equals the argument; when no row
matches, the table is unchanged (zero rows affected). -/
theorem dataSource_delete_total_and_exact (c : DBCredentials) (a : Bool)
    (db : List Row) (name : String) :
    DataSource.deleteOps (DataSource.init c a) name =
      [DaoOp.delete "datasource" "name" (Value.vStr name) (some "public")] ∧
    DataSource.deleteResult (DataSource.init c a) db name =
      Except.ok (db.filter
        (fun r => ¬ (lookupCol r "name" = some (Value.vStr name)))) ∧
    ((∀ r ∈ db, ¬ lookupCol r "name" = some (Value.vStr name)) →
      DataSource.deleteResult (DataSource.init c a) db name =
        Except.ok db) := by
  refine ⟨rfl, rfl, fun h => ?_⟩
  have e : DataSource.deleteResult (DataSource.init c a) db name =
      Except.ok (db.filter
        (fun r => ¬ (lookupCol r "name" = some (Value.vStr name)))) := rfl
  rw [e]
  congr 1
  rw [List.filter_eq_self]
  intro r hr
  simpa using h r hr

/-- Witness for C7 on a one-row table holding a different name: deleting a
name never created succeeds and affects zero rows. -/
theorem dataSource_delete_total_and_exact_witness :
    (∀ r ∈ [[("name", Value.vStr "other")]],
      ¬ lookupCol r "name" = some (Value.vStr "fda_events")) ∧
    DataSource.deleteResult (DataSource.init sampleCredentials false)
      [[("name", Value.vStr "other")]] "fda_events" =
      Except.ok [[("name", Value.vStr "other")]] :=
  ⟨by decide,
   (dataSource_delete_total_and_exact sampleCredentials false
     [[("name", Value.vStr "other")]] "fda_events").2.2 (by decide)⟩

/-- C8: `DataSourceEvent.create(**attrs)` issues exactly one insert whose
column list is the supplied attribute names and whose value list is the
corresponding values in the same order; the inserted row is the attribute set
itself, and a subsequent `read(name)` (when the attributes carry that name)
returns that row, whose columns are exactly the supplied attributes. -/
theorem dataSourceEvent_create_exact_columns_roundtrip (c : DBCredentials)
    (db : List Row) (kwargs : List (String × Value)) (name : String) :
    DataSourceEvent.createOps (DataSourceEvent.init c) kwargs =
      [DaoOp.create "datasourceevent" (kwargs.map Prod.fst)
        (kwargs.map Prod.snd) (some "public")] ∧
    runOps db (DataSourceEvent.createOps (DataSourceEvent.init c) kwargs) =
      db ++ [kwargs] ∧
    (lookupCol kwargs "name" = some (Value.vStr name) →
      ∃ rows, DataSourceEvent.readResult
          (runOps db (DataSourceEvent.createOps (DataSourceEvent.init c)
            kwargs)) (some name) = Except.ok rows ∧
        kwargs ∈ rows) := by
  have e2 : runOps db (DataSourceEvent.createOps (DataSourceEvent.init c)
      kwargs) = db ++ [(kwargs.map Prod.fst).zip (kwargs.map Prod.snd)] := rfl
  have e3 : (db ++ [(kwargs.map Prod.fst).zip (kwargs.map Prod.snd)]) =
      db ++ [kwargs] := by rw [zip_fst_snd_self]
  refine ⟨rfl, by rw [e2, e3], fun h => ?_⟩
  refine ⟨(db ++ [kwargs]).filter
    (fun r => lookupCol r "name" = some (Value.vStr name)), ?_, ?_⟩
  · rw [e2, e3]
    rfl
  · rw [List.mem_filter]
    constructor
    · simp
    · simpa using h

/-- Witness for C8 with a two-attribute event: the inserted row is returned by
the name-filtered read. -/
theorem dataSourceEvent_create_roundtrip_witness :
    lookupCol [("name", Value.vStr "fda_events"), ("completed", Value.vTime 7)]
      "name" = some (Value.vStr "fda_events") ∧
    (∃ rows, DataSourceEvent.readResult
        (runOps [] (DataSourceEvent.createOps
          (DataSourceEvent.init sampleCredentials)
          [("name", Value.vStr "fda_events"),
           ("completed", Value.vTime 7)])) (some "fda_events") =
        Except.ok rows ∧
      [("name", Value.vStr "fda_events"), ("completed", Value.vTime 7)] ∈
        rows) :=
  ⟨by decide,
   (dataSourceEvent_create_exact_columns_roundtrip sampleCredentials []
     [("name", Value.vStr "fda_events"), ("completed", Value.vTime 7)]
     "fda_events").2.2 (by decide)⟩

/-- A pair drawn from a list zipped with its image under `f` has the image as
its second component. -/
theorem mem_zip_map_self (l : List Row) (f : Row → Row) (pr : Row × Row)
    (h : pr ∈ l.zip (l.map f)) : pr.2 = f pr.1 := by
  induction l with
  | nil => cases h
  | cons x xs ih =>
      rw [List.map_cons, List.zip_cons_cons, List.mem_cons] at h
      rcases h with h | h
      · rw [h]
      · exact ih h

/-- C4: after `DataSource.update` on a table, a `read(name)` returns only rows
carrying all five updated column values simultaneously; the table keeps its
length, and positionally every row keeps the pre-update value of every column
other than the five updated ones (in particular name and all creation-time
attributes). -/
theorem dataSource_update_read_reflects_five_frames_rest (c : DBCredentials)
    (a : Bool) (db : List Row) (name : String)
    (version uris has_changed source_updated updated updated_by : Value) :
    (∀ rows, DataSource.readResult (runOps db (DataSource.updateOps
        (DataSource.init c a) name version uris has_changed source_updated
        updated updated_by)) (some name) = Except.ok rows →
      ∀ r ∈ rows,
        lookupCol r "uris" = some uris ∧
        lookupCol r "has_changed" = some has_changed ∧
        lookupCol r "source_updated" = some source_updated ∧
        lookupCol r "updated" = some updated ∧
        lookupCol r "updated_by" = some updated_by) ∧
    (runOps db (DataSource.updateOps (DataSource.init c a) name version uris
       has_changed source_updated updated updated_by)).length = db.length ∧
    (∀ pr ∈ db.zip (runOps db (DataSource.updateOps (DataSource.init c a)
        name version uris has_changed source_updated updated updated_by)),
      ∀ c2 : String,
        c2 ∉ ["uris", "has_changed", "source_updated", "updated",
              "updated_by"] →
        lookupCol pr.2 c2 = lookupCol pr.1 c2) := by
  have e := runOps_updateOps c a db name version uris has_changed
    source_updated updated updated_by
  refine ⟨?_, ?_, ?_⟩
  · intro rows heq r hr
    have hok : Except.ok (ε := String) ((runOps db (DataSource.updateOps
        (DataSource.init c a) name version uris has_changed source_updated
        updated updated_by)).filter
        (fun r => lookupCol r "name" = some (Value.vStr name))) =
        Except.ok rows := heq
    rw [Except.ok.injEq] at hok
    subst hok
    rw [List.mem_filter] at hr
    obtain ⟨hmem, hp⟩ := hr
    rw [e] at hmem
    simp only [List.mem_map] at hmem
    obtain ⟨r0, hr0, hFr0⟩ := hmem
    by_cases hm : lookupCol r0 "name" = some (Value.vStr name)
    · rw [if_pos hm] at hFr0
      subst hFr0
      have hch := lookupCol_updateChain r0 uris has_changed source_updated
        updated updated_by
      exact ⟨hch.1, hch.2.1, hch.2.2.1, hch.2.2.2.1, hch.2.2.2.2.1⟩
    · rw [if_neg hm] at hFr0
      subst hFr0
      rw [decide_eq_true_eq] at hp
      exact absurd hp hm
  · rw [e]
    exact List.length_map db _
  · intro pr hpr c2 hc2
    rw [e] at hpr
    have h2 := mem_zip_map_self db _ pr hpr
    simp only [h2]
    by_cases hm : lookupCol pr.1 "name" = some (Value.vStr name)
    · rw [if_pos hm]
      have hch := lookupCol_updateChain pr.1 uris has_changed source_updated
        updated updated_by
      simp only [List.mem_cons, List.not_mem_nil, or_false, not_or] at hc2
      exact hch.2.2.2.2.2 c2 hc2.1 hc2.2.1 hc2.2.2.1 hc2.2.2.2.1
        hc2.2.2.2.2
    · rw [if_neg hm]

/-- Witness for C4 on a one-row table: the read after update shows the five
new column values, the length is preserved, and the `name` column keeps its
pre-update value. -/
theorem dataSource_update_read_frames_witness :
    DataSource.readResult (runOps [[("name", Value.vStr "n1")]]
      (DataSource.updateOps (DataSource.init sampleCredentials false) "n1"
        (Value.vInt 9) (Value.vInt 1) (Value.vInt 2) (Value.vInt 3)
        (Value.vInt 4) (Value.vInt 5))) (some "n1") =
      Except.ok [[("name", Value.vStr "n1"), ("uris", Value.vInt 1),
        ("has_changed", Value.vInt 2), ("source_updated", Value.vInt 3),
        ("updated", Value.vInt 4), ("updated_by", Value.vInt 5)]] ∧
    lookupCol [("name", Value.vStr "n1"), ("uris", Value.vInt 1),
        ("has_changed", Value.vInt 2), ("source_updated", Value.vInt 3),
        ("updated", Value.vInt 4), ("updated_by", Value.vInt 5)] "uris" =
      some (Value.vInt 1) ∧
    (runOps [[("name", Value.vStr "n1")]]
      (DataSource.updateOps (DataSource.init sampleCredentials false) "n1"
        (Value.vInt 9) (Value.vInt 1) (Value.vInt 2) (Value.vInt 3)
        (Value.vInt 4) (Value.vInt 5))).length =
      [[("name", Value.vStr "n1")]].length ∧
    lookupCol ([("name", Value.vStr "n1"), ("uris", Value.vInt 1),
        ("has_changed", Value.vInt 2), ("source_updated", Value.vInt 3),
        ("updated", Value.vInt 4), ("updated_by", Value.vInt 5)] : Row)
        "name" = lookupCol ([("name", Value.vStr "n1")] : Row) "name" := by
  have h := dataSource_update_read_reflects_five_frames_rest
    sampleCredentials false [[("name", Value.vStr "n1")]] "n1"
    (Value.vInt 9) (Value.vInt 1) (Value.vInt 2) (Value.vInt 3)
    (Value.vInt 4) (Value.vInt 5)
  refine ⟨rfl, ?_, h.2.1, ?_⟩
  · exact (h.1 [[("name", Value.vStr "n1"), ("uris", Value.vInt 1),
      ("has_changed", Value.vInt 2), ("source_updated", Value.vInt 3),
      ("updated", Value.vInt 4), ("updated_by", Value.vInt 5)]] rfl
      [("name", Value.vStr "n1"), ("uris", Value.vInt 1),
       ("has_changed", Value.vInt 2), ("source_updated", Value.vInt 3),
       ("updated", Value.vInt 4), ("updated_by", Value.vInt 5)]
      (by decide)).1
  · exact h.2.2 ([("name", Value.vStr "n1")],
      [("name", Value.vStr "n1"), ("uris", Value.vInt 1),
       ("has_changed", Value.vInt 2), ("source_updated", Value.vInt 3),
       ("updated", Value.vInt 4), ("updated_by", Value.vInt 5)])
      (by decide) "name" (by decide)
